import Mathlib

/-!
Shallow embedding of the voice interview dialogue controller
(`src/lib/voice/VoiceService.ts` together with its two speech ports,
`src/lib/voice/speechToText.ts` and `lib/voice/texttospeech.ts`).

Modelling conventions, each justified against the source:

* The controller is single-threaded and callback driven, but its public
  methods are async with real suspension points (`await speak(...)`,
  `await delay(...)`, `await speechToText.start()`), at which the event
  loop may deliver further user actions or port completions.  Two levels
  of granularity are modelled.  (1) Run-to-completion delivery: each
  method as one pure state transformer `Conf → Conf` over the controller
  state plus an append-only record of its observable outputs
  (`Effects`); `applyOp`/`Reachable` below quantify over stimulus
  sequences in which every stimulus arrives only between whole
  operations.  This is the scope of the sequential-run claims (a
  "normal completion" run, a lone transcript burst, a lone refused
  submit, a lone stop).  (2) Await-point interleaving: the synchronous
  slices between awaits are modelled separately (`speakBegin`/`speakEnd`
  and the `race...` slices below, with `speak = speakEnd ∘ speakBegin`
  proved by `rfl`), and an explicit overlapping schedule exhibits the
  states that run-to-completion delivery cannot reach.
* `updateState` in the source merges a partial record into `this.state`
  and then invokes the registered `onStateChange` callback.  We model the
  merge as a function on `VoiceState` and record every emitted state in
  `Effects.emittedStates`, so claims about intermediate states (for
  example mutual exclusion of `isListening`/`isSpeaking`) quantify over
  every state the UI could ever observe.
* The speech-output port (`TextToSpeech.speak`) always resolves: real
  synthesis errors, cancellation and the safety timeout all end in
  `resolve()` without touching controller state.  Hence `speak` below is
  the pair of `updateState` calls around an always-successful await; the
  spoken text is recorded as a port call.
* The speech-input port is represented by its observable interactions:
  `sttStartCalls` / `sttStopCalls` count `speechToText.start()` /
  `stop()` invocations, and delivered transcripts enter through
  `handleUserTranscript`.  A rejected `speechToText.start()` (for
  example the permission-denied rejection raised before recognition is
  started) is caught inside `VoiceService.startListening`, whose catch
  block only logs; the `portOk` parameter of `startListening` records
  the port outcome and — exactly as in the source — has no influence on
  the resulting controller state.
* `VoiceMessage` in the source has fields `role`, `content`,
  `timestamp`.  Wall-clock timestamps are not modelled.  The field
  `questionIndex` below is ghost instrumentation: it records the value
  of `currentQuestionIndex` at the moment the message was pushed, which
  in the source is the association, implicit in program order, between
  a user message and the question it answers.
* Background work after completion (the `setTimeout` feedback fetch) and
  `console.log` calls are not modelled; `toast` notifications are
  recorded in `Effects.toasts`.
-/

namespace HugoVoice

/-- Message roles used by `VoiceService` (`"user" | "assistant"`). -/
inductive Role where
  | user
  | assistant
deriving DecidableEq, Repr

/-- One entry of the controller's message log (`VoiceMessage` in the
source, minus the wall-clock timestamp).  `questionIndex` is ghost
instrumentation recording `currentQuestionIndex` at push time. -/
structure VoiceMessage where
  role : Role
  content : String
  questionIndex : Nat
deriving DecidableEq, Repr

/-- The `VoiceState` record of `VoiceService`. -/
structure VoiceState where
  isListening : Bool
  isSpeaking : Bool
  isProcessing : Bool
  transcript : String
  error : Option String
deriving DecidableEq, Repr

/-- The completion payload assembled in `completeInterview` (the fields
the claims are about; identifiers and wall-clock timestamps elided). -/
structure CompletionData where
  questionsAsked : Nat
  answersGiven : Nat
  transcript : List VoiceMessage
deriving DecidableEq, Repr

/-- Kinds of `toast` notifications used by the source. -/
inductive ToastKind where
  | info
  | success
  | warning
  | error
deriving DecidableEq, Repr

/-- Append-only record of the controller's observable outputs. -/
structure Effects where
  emittedStates : List VoiceState
  completions : List CompletionData
  toasts : List (ToastKind × String)
  sttStartCalls : Nat
  sttStopCalls : Nat
  ttsStopCalls : Nat
  spokenTexts : List String
deriving DecidableEq, Repr

/-- The mutable fields of the `VoiceService` instance. -/
structure Service where
  state : VoiceState
  messages : List VoiceMessage
  interviewQuestions : List String
  currentQuestionIndex : Nat
  isActive : Bool
deriving DecidableEq, Repr

/-- Controller state together with its accumulated observable outputs. -/
structure Conf where
  service : Service
  eff : Effects
deriving DecidableEq, Repr

/-- Initial `VoiceState` (constructor initializer of `VoiceService`). -/
def initialState : VoiceState :=
  { isListening := false, isSpeaking := false, isProcessing := false
    transcript := "", error := none }

/-- A freshly constructed `VoiceService` before `setInterviewQuestions`. -/
def initialService : Service :=
  { state := initialState, messages := [], interviewQuestions := []
    currentQuestionIndex := 0, isActive := false }

/-- No outputs observed yet. -/
def emptyEffects : Effects :=
  { emittedStates := [], completions := [], toasts := []
    sttStartCalls := 0, sttStopCalls := 0, ttsStopCalls := 0
    spokenTexts := [] }

/-- A freshly constructed controller with no observed outputs. -/
def initialConf : Conf := { service := initialService, eff := emptyEffects }

/-- `VoiceService.updateState`: merge an update into `this.state` and
invoke the `onStateChange` callback with the new state. -/
def updState (c : Conf) (f : VoiceState → VoiceState) : Conf :=
  let st := f c.service.state
  { service := { c.service with state := st }
    eff := { c.eff with emittedStates := c.eff.emittedStates ++ [st] } }

/-- A `toast.*` notification. -/
def addToast (c : Conf) (k : ToastKind) (msg : String) : Conf :=
  { c with eff := { c.eff with toasts := c.eff.toasts ++ [(k, msg)] } }

/-- `this.messages.push(...)` followed by the `onUpdate` callback; the
ghost `questionIndex` snapshots `currentQuestionIndex`. -/
def pushMessage (c : Conf) (r : Role) (content : String) : Conf :=
  { c with service := { c.service with
      messages := c.service.messages ++
        [{ role := r, content := content
           questionIndex := c.service.currentQuestionIndex }] } }

/-- `this.speechToText?.stop()` (input-port call). -/
def sttStop (c : Conf) : Conf :=
  { c with eff := { c.eff with sttStopCalls := c.eff.sttStopCalls + 1 } }

/-- `this.textToSpeech?.stop()` (output-port call, cancels playback). -/
def ttsStop (c : Conf) : Conf :=
  { c with eff := { c.eff with ttsStopCalls := c.eff.ttsStopCalls + 1 } }

/-- `this.speechToText.start()` was invoked (input-port call). -/
def sttStartCall (c : Conf) : Conf :=
  { c with eff := { c.eff with sttStartCalls := c.eff.sttStartCalls + 1 } }

/-- `VoiceService.speak`: set `isSpeaking`, await the output port (which
always resolves, swallowing synthesis errors), clear `isSpeaking`. -/
def speak (c : Conf) (text : String) : Conf :=
  let c1 := updState c (fun st => { st with isSpeaking := true })
  let c2 : Conf :=
    { c1 with eff := { c1.eff with spokenTexts := c1.eff.spokenTexts ++ [text] } }
  updState c2 (fun st => { st with isSpeaking := false })

/-- The user-role entries of the message log (what `completeInterview`
counts as `answersGiven` and what the spec calls the transcript log's
turn records). -/
def userMessages (c : Conf) : List VoiceMessage :=
  c.service.messages.filter (fun m => m.role == Role.user)

/-- The completion payload of `completeInterview`. -/
def completionPayload (s : Service) : CompletionData :=
  { questionsAsked := s.interviewQuestions.length
    answersGiven := (s.messages.filter (fun m => m.role == Role.user)).length
    transcript := s.messages }

/-- `VoiceService.completeInterview` (the background feedback fetch is
not modelled; the `onComplete` callback receives the payload). -/
def completeInterview (c : Conf) : Conf :=
  if c.service.isActive = false then c
  else
    let c1 : Conf := { c with service := { c.service with isActive := false } }
    let c2 := updState c1 (fun st =>
      { st with isListening := false, isSpeaking := false, isProcessing := true })
    let c3 := speak c2 "Interview completed. Redirecting to feedback..."
    let c4 : Conf :=
      { c3 with eff := { c3.eff with
          completions := c3.eff.completions ++ [completionPayload c3.service] } }
    updState c4 (fun st => { st with isProcessing := false })

/-- The `content` of the message pushed by `skipQuestion`
(the skip sentinel; the index is 1-based in the source text). -/
def skipSentinel (idx : Nat) : String :=
  "[Skipped question " ++ toString (idx + 1) ++ "]"

/-- The assistant-message content saved by `askCurrentQuestion`. -/
def questionLabel (idx : Nat) (q : String) : String :=
  "Question " ++ toString (idx + 1) ++ ": " ++ q

/-- JavaScript's `String.prototype.trim()` as used by `submitAnswer`:
strip leading and trailing whitespace.  (Defined over the character list
so that it evaluates by reduction.) -/
def trimString (s : String) : String :=
  ⟨((s.data.dropWhile Char.isWhitespace).reverse.dropWhile
      Char.isWhitespace).reverse⟩

/-- `VoiceService.startListening`.  The source sets the listening flags,
shows a toast, clears the port transcript and awaits
`speechToText.start()`; its catch block only logs, so the port outcome
`portOk` does not influence the resulting controller state. -/
def startListening (portOk : Bool) (c : Conf) : Conf :=
  if c.service.isActive = false then c
  else
    let c1 := updState c (fun st =>
      { st with isListening := true, isSpeaking := false, transcript := "" })
    let c2 := addToast c1 ToastKind.info
      ("Question " ++ toString (c1.service.currentQuestionIndex + 1) ++
        " - Speak then click Submit")
    sttStartCall c2

/-- `VoiceService.askCurrentQuestion`. -/
def askCurrentQuestion (portOk : Bool) (c : Conf) : Conf :=
  if c.service.isActive = false then c
  else if c.service.interviewQuestions.length ≤ c.service.currentQuestionIndex then
    completeInterview c
  else
    let idx := c.service.currentQuestionIndex
    let q := c.service.interviewQuestions.getD idx ""
    let c1 := pushMessage c Role.assistant (questionLabel idx q)
    let c2 := speak c1 ("Question " ++ toString (idx + 1) ++ ". " ++ q)
    let c3 := speak c2 "When ready, click Submit Answer."
    startListening portOk c3

/-- `VoiceService.submitAnswer`. -/
def submitAnswer (portOk : Bool) (c : Conf) : Conf :=
  if c.service.isActive = false then
    addToast c ToastKind.error "Interview not active"
  else
    let c1 := sttStop c
    let c2 := updState c1 (fun st => { st with isListening := false })
    let answerText := trimString c2.service.state.transcript
    if answerText = "" then
      addToast c2 ToastKind.warning "Please speak an answer first"
    else
      let c3 := pushMessage c2 Role.user answerText
      let c4 := addToast c3 ToastKind.success
        ("Answer " ++ toString (c3.service.currentQuestionIndex + 1) ++ " submitted!")
      let c5 := speak c4 "Thank you for your answer."
      let c6 : Conf :=
        { c5 with service := { c5.service with
            currentQuestionIndex := c5.service.currentQuestionIndex + 1 } }
      let c7 := updState c6 (fun st => { st with transcript := "" })
      askCurrentQuestion portOk c7

/-- `VoiceService.skipQuestion`. -/
def skipQuestion (portOk : Bool) (c : Conf) : Conf :=
  if c.service.isActive = false then c
  else
    let c1 := sttStop c
    let c2 := updState c1 (fun st => { st with isListening := false })
    let c3 := pushMessage c2 Role.user (skipSentinel c2.service.currentQuestionIndex)
    let c4 := addToast c3 ToastKind.info
      ("Question " ++ toString (c3.service.currentQuestionIndex + 1) ++ " skipped")
    let c5 := speak c4 "Question skipped."
    let c6 : Conf :=
      { c5 with service := { c5.service with
          currentQuestionIndex := c5.service.currentQuestionIndex + 1 } }
    let c7 := updState c6 (fun st => { st with transcript := "" })
    askCurrentQuestion portOk c7

/-- `VoiceService.setInterviewQuestions`. -/
def setInterviewQuestions (c : Conf) (qs : List String) : Conf :=
  { c with service := { c.service with interviewQuestions := qs } }

/-- `VoiceService.startInterview`.  Throws (models as `Except.error`)
when no questions are set; note the source has no already-running guard:
the session fields are reset unconditionally.  The reset of `this.state`
is a direct field assignment in the source, not an `updateState` call,
so it emits no state-change event. -/
def startInterview (portOk : Bool) (c : Conf) : Except String Conf :=
  if c.service.interviewQuestions.length = 0 then
    Except.error "No interview questions set"
  else
    let c1 : Conf :=
      { c with service := { c.service with
          isActive := true, currentQuestionIndex := 0, messages := []
          state := initialState } }
    let c2 := updState c1 (fun st => { st with isProcessing := true })
    let c3 := speak c2
      "Interview starting. I will ask questions and wait for your answers."
    Except.ok (askCurrentQuestion portOk c3)

/-- `VoiceService.handleUserTranscript`, the registered `onTranscript`
callback of the input port.  `isFinal` is logged but never used. -/
def handleUserTranscript (text : String) (isFinal : Bool) (c : Conf) : Conf :=
  if c.service.isActive = false then c
  else updState c (fun st => { st with transcript := text })

/-- `VoiceService.stop`. -/
def stop (c : Conf) : Conf :=
  let c1 : Conf := { c with service := { c.service with isActive := false } }
  let c2 := sttStop c1
  let c3 := ttsStop c2
  updState c3 (fun st =>
    { st with isListening := false, isSpeaking := false, isProcessing := false })

/-- `VoiceService.handleError`: direct field assignments (no state-change
emission) plus an error toast. -/
def handleError (c : Conf) (msg : String) : Conf :=
  let c1 : Conf := { c with service := { c.service with
      state := { c.service.state with error := some msg }, isActive := false } }
  addToast c1 ToastKind.error "Voice service error"

/-- Deliver a list of transcript events `(text, isFinal)` in order. -/
def applyTranscripts (evs : List (String × Bool)) (c : Conf) : Conf :=
  evs.foldl (fun c e => handleUserTranscript e.1 e.2 c) c

/-- One normally-closed turn: some transcript events followed by a
manual `submitAnswer`, or some transcript events followed by
`skipQuestion`. -/
inductive TurnAction where
  | answer (evs : List (String × Bool)) (txt : String)
  | skip (evs : List (String × Bool))
deriving Repr

/-- An `answer` turn is only a normal closure when the submitted text is
nonempty after trimming (otherwise `submitAnswer` refuses it). -/
def TurnValid : TurnAction → Prop
  | TurnAction.answer _ txt => trimString txt ≠ ""
  | TurnAction.skip _ => True

instance : ∀ t, Decidable (TurnValid t)
  | TurnAction.answer _ txt => inferInstanceAs (Decidable (trimString txt ≠ ""))
  | TurnAction.skip _ => inferInstanceAs (Decidable True)

/-- Execute one turn. -/
def doTurn (portOk : Bool) (t : TurnAction) (c : Conf) : Conf :=
  match t with
  | TurnAction.answer evs txt =>
      submitAnswer portOk (handleUserTranscript txt false (applyTranscripts evs c))
  | TurnAction.skip evs =>
      skipQuestion portOk (applyTranscripts evs c)

/-- Execute a sequence of turns. -/
def runTurns (portOk : Bool) (ts : List TurnAction) (c : Conf) : Conf :=
  ts.foldl (fun c t => doTurn portOk t c) c

/-- External stimuli of the controller: public method calls and
input-port transcript deliveries, with `portOk` recording whether the
input port's `start()` resolved or rejected. -/
inductive Op where
  | setQuestions (qs : List String)
  | startOp (portOk : Bool)
  | submit (portOk : Bool)
  | skip (portOk : Bool)
  | transcriptEv (t : String) (isFinal : Bool)
  | stopOp
deriving Repr

/-- Apply one stimulus under run-to-completion delivery: the stimulus
arrives while no other method execution is suspended at an await, so the
whole method runs as one step.  (Overlapping executions, where a
stimulus arrives at an await point of an in-flight method, are modelled
by the `race...` slices below.)  A throwing `startInterview` leaves the
controller untouched (the source throws before any mutation). -/
def applyOp : Op → Conf → Conf
  | Op.setQuestions qs, c => setInterviewQuestions c qs
  | Op.startOp p, c =>
      match startInterview p c with
      | Except.ok c' => c'
      | Except.error _ => c
  | Op.submit p, c => submitAnswer p c
  | Op.skip p, c => skipQuestion p c
  | Op.transcriptEv t f, c => handleUserTranscript t f c
  | Op.stopOp, c => stop c

/-- Apply a sequence of stimuli. -/
def runOps (ops : List Op) (c : Conf) : Conf :=
  ops.foldl (fun c o => applyOp o c) c

/-- Configurations reachable from a freshly constructed controller by
any sequence of controller operations and port events delivered between
whole operations (run-to-completion).  This relation does NOT cover
schedules in which a stimulus arrives at an await point of an in-flight
method; those are modelled by the `race...` slices below, and do reach
states this relation excludes. -/
inductive Reachable : Conf → Prop where
  | init : Reachable initialConf
  | step : ∀ {c} (o : Op), Reachable c → Reachable (applyOp o c)

/-- Mutual-exclusion check on one observable state. -/
def mutexOK (st : VoiceState) : Bool :=
  !(st.isListening && st.isSpeaking)

/-- Every state ever handed to the `onStateChange` callback satisfies
mutual exclusion. -/
def EmitsOK (c : Conf) : Prop :=
  c.eff.emittedStates.all mutexOK = true

/-- Inductive invariant: between stimuli the controller is never mid-way
through a `speak` (so `isSpeaking` is `false`), and every state emitted
so far satisfies mutual exclusion. -/
def Inv (c : Conf) : Prop :=
  c.service.state.isSpeaking = false ∧ EmitsOK c

/-- A short concrete stimulus sequence used to exhibit reachability. -/
def demoOps : List Op :=
  [Op.setQuestions ["Q1"], Op.startOp true, Op.skip true]

/-- The configuration reached by `demoOps`. -/
def demoReached : Conf := runOps demoOps initialConf

/-- Controller started on `["Q1", "Q2"]`: active, question 1 asked,
listening with an empty pending transcript. -/
def startedConf : Conf :=
  match startInterview true (setInterviewQuestions initialConf ["Q1", "Q2"]) with
  | Except.ok c => c
  | Except.error _ => initialConf

/-- Scenario B of the spec: single question, skipped before any
transcript arrives. -/
def scenarioBConf : Conf :=
  match startInterview true (setInterviewQuestions initialConf ["Q1"]) with
  | Except.ok c => skipQuestion true c
  | Except.error _ => initialConf

/-- Scenario D of the spec: the input port's `start()` rejects
(permission denied) during the first listening phase. -/
def scenarioDConf : Conf :=
  match startInterview false (setInterviewQuestions initialConf ["Q1"]) with
  | Except.ok c => c
  | Except.error _ => initialConf

/-- A session on `["Q1", "Q2"]` with the first question already answered:
active, `currentQuestionIndex = 1`, three logged messages. -/
def runningConf : Conf :=
  match startInterview true (setInterviewQuestions initialConf ["Q1", "Q2"]) with
  | Except.ok c => submitAnswer true (handleUserTranscript "answer one" false c)
  | Except.error _ => initialConf

/-- `startedConf` after an interim transcript was delivered: a pending,
unsubmitted transcript is present. -/
def pendingConf : Conf := handleUserTranscript "hello there" false startedConf

/-- `startedConf` after `stop()`: a terminal (stopped) configuration. -/
def stoppedConf : Conf := stop startedConf

/-!
### Await-point slices and an overlapping schedule

The public methods are async; at each `await` the event loop may run a
user click or a resolved promise's continuation.  The slices below are
the synchronous segments of the source between awaits (each one is a
transliteration of the corresponding source lines; the branch decisions
taken inside a slice are certified as guard conjuncts of the theorem
that uses it).  `speak` factors as `speakEnd ∘ speakBegin` by `rfl`,
the suspension point being the await on the output-port promise.
-/

/-- Synchronous prefix of `VoiceService.speak`:
`updateState({isSpeaking:true})` and the output-port call; the method
then suspends at `await this.textToSpeech.speak(text)`. -/
def speakBegin (c : Conf) (text : String) : Conf :=
  let c1 := updState c (fun st => { st with isSpeaking := true })
  { c1 with eff := { c1.eff with
      spokenTexts := c1.eff.spokenTexts ++ [text] } }

/-- Continuation of `VoiceService.speak` once the output-port promise
resolves (playback end, cancellation, or the safety timeout): the
finally block's `updateState({isSpeaking:false})`. -/
def speakEnd (c : Conf) : Conf :=
  updState c (fun st => { st with isSpeaking := false })

/-- Task A, slice 1 — the user starts the interview on `["Q1", "Q2"]`:
`startInterview()` (its empty-questions guard is false here, certified
below) resets the session by direct assignment, emits
`isProcessing:=true`, and suspends inside `speak(welcome)`. -/
def raceA1 (c : Conf) : Conf :=
  let c1 : Conf := { c with service := { c.service with
      isActive := true, currentQuestionIndex := 0, messages := []
      state := initialState } }
  let c2 := updState c1 (fun st => { st with isProcessing := true })
  speakBegin c2
    "Interview starting. I will ask questions and wait for your answers."

/-- Task A, slice 2 — the welcome playback ends: `speak`'s finally
clears `isSpeaking`; `startInterview` then suspends at
`await delay(1000)`. -/
def raceA2 (c : Conf) : Conf := speakEnd c

/-- Task A, slice 3 — the delay timer fires: `askCurrentQuestion()`
(active, index 0 in range, certified below) pushes the assistant
message for question 1 and suspends inside `speak("Question 1. Q1")`. -/
def raceA3 (c : Conf) : Conf :=
  let idx := c.service.currentQuestionIndex
  let q := c.service.interviewQuestions.getD idx ""
  let c1 := pushMessage c Role.assistant (questionLabel idx q)
  speakBegin c1 ("Question " ++ toString (idx + 1) ++ ". " ++ q)

/-- Task B, slice 1 — the user clicks Skip while question 1 is still
being spoken (the UI never disables the button): `skipQuestion()`'s
synchronous prefix (active, certified below) stops the input port,
clears `isListening`, pushes the skip sentinel and the toast, then
suspends inside `speak("Question skipped.")`; that output-port call
cancels the in-flight question playback, resolving task A's await. -/
def raceB1 (c : Conf) : Conf :=
  let c1 := sttStop c
  let c2 := updState c1 (fun st => { st with isListening := false })
  let c3 := pushMessage c2 Role.user
    (skipSentinel c2.service.currentQuestionIndex)
  let c4 := addToast c3 ToastKind.info
    ("Question " ++ toString (c3.service.currentQuestionIndex + 1) ++
      " skipped")
  speakBegin c4 "Question skipped."

/-- Task A, slice 4 — its playback promise was resolved by the
cancellation in `raceB1`: `speak`'s finally clears `isSpeaking`, and
`askCurrentQuestion` suspends inside the second
`speak("When ready, click Submit Answer.")`, whose output-port call in
turn cancels task B's in-flight playback. -/
def raceA4 (c : Conf) : Conf :=
  speakBegin (speakEnd c) "When ready, click Submit Answer."

/-- Task B, slice 2 — its playback promise was resolved by the
cancellation in `raceA4`: `speak`'s finally clears `isSpeaking`;
`skipQuestion` then suspends at `await delay(1000)`. -/
def raceB2 (c : Conf) : Conf := speakEnd c

/-- Task A, slice 5 — the second playback ends: `speak`'s finally, then
`startListening()` (active, certified below) sets `isListening := true`,
shows the toast and starts the input port; task A parks awaiting
`speechToText.start()`. -/
def raceA5 (c : Conf) : Conf :=
  let c1 := speakEnd c
  let c2 := updState c1 (fun st =>
    { st with isListening := true, isSpeaking := false, transcript := "" })
  let c3 := addToast c2 ToastKind.info
    ("Question " ++ toString (c2.service.currentQuestionIndex + 1) ++
      " - Speak then click Submit")
  sttStartCall c3

/-- Task B, slice 3 — its delay timer fires: `skipQuestion` advances
`currentQuestionIndex`, clears the transcript, and re-enters
`askCurrentQuestion()` for question 2 (active, index in range,
certified below), which pushes the assistant message and calls
`speak("Question 2. Q2")` — whose `updateState({isSpeaking:true})`
fires while `isListening` is still true from `raceA5`. -/
def raceB3 (c : Conf) : Conf :=
  let c1 : Conf := { c with service := { c.service with
      currentQuestionIndex := c.service.currentQuestionIndex + 1 } }
  let c2 := updState c1 (fun st => { st with transcript := "" })
  let idx := c2.service.currentQuestionIndex
  let q := c2.service.interviewQuestions.getD idx ""
  let c3 := pushMessage c2 Role.assistant (questionLabel idx q)
  speakBegin c3 ("Question " ++ toString (idx + 1) ++ ". " ++ q)

/-- The interleaved schedule, step by step. -/
def race1 : Conf := raceA1 (setInterviewQuestions initialConf ["Q1", "Q2"])

/-- After the welcome playback ends. -/
def race2 : Conf := raceA2 race1

/-- After the start-up delay fires (question 1 being spoken). -/
def race3 : Conf := raceA3 race2

/-- After the Skip click lands mid-speech. -/
def race4 : Conf := raceB1 race3

/-- After task A resumes (its playback was cancelled by the skip). -/
def race5 : Conf := raceA4 race4

/-- After task B resumes (its playback was cancelled by task A). -/
def race6 : Conf := raceB2 race5

/-- After the second playback ends and task A starts listening. -/
def race7 : Conf := raceA5 race6

/-- After task B's delay fires and it begins speaking question 2. -/
def raceTrace : Conf := raceB3 race7

/-! ### Field lemmas for the elementary operations -/

theorem speak_eq_slices (c : Conf) (t : String) :
    speak c t = speakEnd (speakBegin c t) := rfl

@[simp] theorem speak_messages (c : Conf) (t : String) :
    (speak c t).service.messages = c.service.messages := rfl

@[simp] theorem speak_index (c : Conf) (t : String) :
    (speak c t).service.currentQuestionIndex = c.service.currentQuestionIndex := rfl

@[simp] theorem speak_questions (c : Conf) (t : String) :
    (speak c t).service.interviewQuestions = c.service.interviewQuestions := rfl

@[simp] theorem speak_isActive (c : Conf) (t : String) :
    (speak c t).service.isActive = c.service.isActive := rfl

@[simp] theorem speak_state (c : Conf) (t : String) :
    (speak c t).service.state = { c.service.state with isSpeaking := false } := rfl

@[simp] theorem speak_completions (c : Conf) (t : String) :
    (speak c t).eff.completions = c.eff.completions := rfl

@[simp] theorem userMessages_speak (c : Conf) (t : String) :
    userMessages (speak c t) = userMessages c := rfl

@[simp] theorem userMessages_pushMessage_assistant (c : Conf) (s : String) :
    userMessages (pushMessage c Role.assistant s) = userMessages c := by
  simp [userMessages, pushMessage]

@[simp] theorem userMessages_pushMessage_user (c : Conf) (s : String) :
    userMessages (pushMessage c Role.user s) =
      userMessages c ++
        [{ role := Role.user, content := s
           questionIndex := c.service.currentQuestionIndex }] := by
  simp [userMessages, pushMessage]

@[simp] theorem completeInterview_messages (c : Conf) :
    (completeInterview c).service.messages = c.service.messages := by
  unfold completeInterview
  split <;> rfl

@[simp] theorem completeInterview_index (c : Conf) :
    (completeInterview c).service.currentQuestionIndex =
      c.service.currentQuestionIndex := by
  unfold completeInterview
  split <;> rfl

@[simp] theorem completeInterview_questions (c : Conf) :
    (completeInterview c).service.interviewQuestions =
      c.service.interviewQuestions := by
  unfold completeInterview
  split <;> rfl

@[simp] theorem completeInterview_isActive (c : Conf) :
    (completeInterview c).service.isActive = false := by
  unfold completeInterview
  split
  · assumption
  · rfl

@[simp] theorem userMessages_completeInterview (c : Conf) :
    userMessages (completeInterview c) = userMessages c := by
  unfold userMessages
  rw [completeInterview_messages]

@[simp] theorem startListening_messages (p : Bool) (c : Conf) :
    (startListening p c).service.messages = c.service.messages := by
  unfold startListening
  split <;> rfl

@[simp] theorem startListening_index (p : Bool) (c : Conf) :
    (startListening p c).service.currentQuestionIndex =
      c.service.currentQuestionIndex := by
  unfold startListening
  split <;> rfl

@[simp] theorem startListening_questions (p : Bool) (c : Conf) :
    (startListening p c).service.interviewQuestions =
      c.service.interviewQuestions := by
  unfold startListening
  split <;> rfl

@[simp] theorem startListening_isActive (p : Bool) (c : Conf) :
    (startListening p c).service.isActive = c.service.isActive := by
  unfold startListening
  split <;> rfl

@[simp] theorem userMessages_startListening (p : Bool) (c : Conf) :
    userMessages (startListening p c) = userMessages c := by
  unfold userMessages
  rw [startListening_messages]

theorem startListening_state_active (p : Bool) (c : Conf)
    (h : c.service.isActive = true) :
    (startListening p c).service.state =
      { c.service.state with
          isListening := true, isSpeaking := false, transcript := "" } := by
  unfold startListening
  rw [if_neg (by simp [h])]
  rfl

theorem startListening_error (p : Bool) (c : Conf) :
    (startListening p c).service.state.error = c.service.state.error := by
  unfold startListening
  split <;> rfl

/-! ### Shape lemmas for `askCurrentQuestion`, `submitAnswer`, `skipQuestion` -/

@[simp] theorem userMessages_askCurrentQuestion (p : Bool) (c : Conf) :
    userMessages (askCurrentQuestion p c) = userMessages c := by
  unfold askCurrentQuestion
  split
  · rfl
  split
  · simp
  · simp

@[simp] theorem askCurrentQuestion_index (p : Bool) (c : Conf) :
    (askCurrentQuestion p c).service.currentQuestionIndex =
      c.service.currentQuestionIndex := by
  unfold askCurrentQuestion
  split
  · rfl
  split
  · simp
  · simp [pushMessage]

@[simp] theorem askCurrentQuestion_questions (p : Bool) (c : Conf) :
    (askCurrentQuestion p c).service.interviewQuestions =
      c.service.interviewQuestions := by
  unfold askCurrentQuestion
  split
  · rfl
  split
  · simp
  · simp [pushMessage]

@[simp] theorem askCurrentQuestion_isActive (p : Bool) (c : Conf) :
    (askCurrentQuestion p c).service.isActive =
      (c.service.isActive &&
        decide (c.service.currentQuestionIndex <
          c.service.interviewQuestions.length)) := by
  unfold askCurrentQuestion
  split
  case isTrue h => simp [h]
  case isFalse h =>
    have hA : c.service.isActive = true := by
      revert h
      cases c.service.isActive <;> simp
    split
    case isTrue h2 =>
      simp [hA, Nat.not_lt.mpr h2]
    case isFalse h2 =>
      simp [hA, Nat.lt_of_not_le h2, pushMessage]

theorem skipQuestion_shape (p : Bool) (c : Conf)
    (h : c.service.isActive = true) :
    userMessages (skipQuestion p c) =
      userMessages c ++
        [{ role := Role.user
           content := skipSentinel c.service.currentQuestionIndex
           questionIndex := c.service.currentQuestionIndex }] ∧
    (skipQuestion p c).service.currentQuestionIndex =
      c.service.currentQuestionIndex + 1 ∧
    (skipQuestion p c).service.interviewQuestions =
      c.service.interviewQuestions ∧
    (skipQuestion p c).service.isActive =
      decide (c.service.currentQuestionIndex + 1 <
        c.service.interviewQuestions.length) := by
  unfold skipQuestion
  rw [if_neg (by simp [h])]
  refine ⟨?_, ?_, ?_, ?_⟩
  · rw [userMessages_askCurrentQuestion]
    simp [userMessages, pushMessage, updState, addToast, sttStop,
      List.filter_append]
  · simp [pushMessage, updState, addToast, sttStop]
  · simp [pushMessage, updState, addToast, sttStop]
  · simp [h, pushMessage, updState, addToast, sttStop]

theorem submitAnswer_shape (p : Bool) (c : Conf)
    (h : c.service.isActive = true)
    (hT : trimString c.service.state.transcript ≠ "") :
    userMessages (submitAnswer p c) =
      userMessages c ++
        [{ role := Role.user
           content := trimString c.service.state.transcript
           questionIndex := c.service.currentQuestionIndex }] ∧
    (submitAnswer p c).service.currentQuestionIndex =
      c.service.currentQuestionIndex + 1 ∧
    (submitAnswer p c).service.interviewQuestions =
      c.service.interviewQuestions ∧
    (submitAnswer p c).service.isActive =
      decide (c.service.currentQuestionIndex + 1 <
        c.service.interviewQuestions.length) := by
  unfold submitAnswer
  rw [if_neg (by simp [h])]
  simp only [sttStop, updState]
  rw [if_neg hT]
  refine ⟨?_, ?_, ?_, ?_⟩
  · rw [userMessages_askCurrentQuestion]
    simp [userMessages, pushMessage, updState, addToast, List.filter_append]
  · simp [pushMessage, updState, addToast]
  · simp [pushMessage, updState, addToast]
  · simp [h, pushMessage, updState, addToast]

/-! ### Transcript-delivery lemmas -/

theorem handleUserTranscript_fields (t : String) (f : Bool) (c : Conf) :
    (handleUserTranscript t f c).service.messages = c.service.messages ∧
    (handleUserTranscript t f c).service.currentQuestionIndex =
      c.service.currentQuestionIndex ∧
    (handleUserTranscript t f c).service.interviewQuestions =
      c.service.interviewQuestions ∧
    (handleUserTranscript t f c).service.isActive = c.service.isActive ∧
    (handleUserTranscript t f c).eff.completions = c.eff.completions ∧
    (handleUserTranscript t f c).service.state.isListening =
      c.service.state.isListening ∧
    (handleUserTranscript t f c).service.state.isSpeaking =
      c.service.state.isSpeaking ∧
    (handleUserTranscript t f c).service.state.isProcessing =
      c.service.state.isProcessing ∧
    (handleUserTranscript t f c).service.state.error =
      c.service.state.error := by
  unfold handleUserTranscript
  split <;> simp [updState]

theorem handleUserTranscript_transcript_active (t : String) (f : Bool)
    (c : Conf) (h : c.service.isActive = true) :
    (handleUserTranscript t f c).service.state.transcript = t := by
  unfold handleUserTranscript
  rw [if_neg (by simp [h])]
  rfl

theorem applyTranscripts_fields (evs : List (String × Bool)) : ∀ c : Conf,
    (applyTranscripts evs c).service.messages = c.service.messages ∧
    (applyTranscripts evs c).service.currentQuestionIndex =
      c.service.currentQuestionIndex ∧
    (applyTranscripts evs c).service.interviewQuestions =
      c.service.interviewQuestions ∧
    (applyTranscripts evs c).service.isActive = c.service.isActive ∧
    (applyTranscripts evs c).eff.completions = c.eff.completions ∧
    (applyTranscripts evs c).service.state.isListening =
      c.service.state.isListening ∧
    (applyTranscripts evs c).service.state.isSpeaking =
      c.service.state.isSpeaking ∧
    (applyTranscripts evs c).service.state.isProcessing =
      c.service.state.isProcessing ∧
    (applyTranscripts evs c).service.state.error =
      c.service.state.error := by
  induction evs with
  | nil => intro c; simp [applyTranscripts]
  | cons e rest ih =>
    intro c
    obtain ⟨a1, a2, a3, a4, a5, a6, a7, a8, a9⟩ :=
      handleUserTranscript_fields e.1 e.2 c
    obtain ⟨b1, b2, b3, b4, b5, b6, b7, b8, b9⟩ :=
      ih (handleUserTranscript e.1 e.2 c)
    have hrw : applyTranscripts (e :: rest) c =
        applyTranscripts rest (handleUserTranscript e.1 e.2 c) := rfl
    rw [hrw]
    exact ⟨b1.trans a1, b2.trans a2, b3.trans a3, b4.trans a4, b5.trans a5,
      b6.trans a6, b7.trans a7, b8.trans a8, b9.trans a9⟩

theorem userMessages_congr {c c' : Conf}
    (h : c'.service.messages = c.service.messages) :
    userMessages c' = userMessages c := by
  unfold userMessages
  rw [h]

/-! ### Start and turn lemmas -/

theorem startInterview_ok_parts (p : Bool) (c : Conf)
    (h : ¬ c.service.interviewQuestions.length = 0) :
    ∃ c', startInterview p c = Except.ok c' ∧
      userMessages c' = [] ∧
      c'.service.currentQuestionIndex = 0 ∧
      c'.service.interviewQuestions = c.service.interviewQuestions ∧
      c'.service.isActive = true := by
  unfold startInterview
  rw [if_neg h]
  refine ⟨_, rfl, ?_, ?_, ?_, ?_⟩
  · rw [userMessages_askCurrentQuestion]
    simp [userMessages, updState]
  · simp [updState]
  · simp [updState]
  · simp [updState, Nat.pos_of_ne_zero h]

theorem doTurn_shape (p : Bool) (t : TurnAction) (c : Conf)
    (hA : c.service.isActive = true) (hv : TurnValid t) :
    (userMessages (doTurn p t c)).map (fun m => m.questionIndex) =
      (userMessages c).map (fun m => m.questionIndex) ++
        [c.service.currentQuestionIndex] ∧
    (doTurn p t c).service.currentQuestionIndex =
      c.service.currentQuestionIndex + 1 ∧
    (doTurn p t c).service.interviewQuestions =
      c.service.interviewQuestions ∧
    (doTurn p t c).service.isActive =
      decide (c.service.currentQuestionIndex + 1 <
        c.service.interviewQuestions.length) := by
  cases t with
  | answer evs txt =>
    obtain ⟨m1, i1, q1, a1, _, _, _, _, _⟩ := applyTranscripts_fields evs c
    obtain ⟨m2, i2, q2, a2, _, _, _, _, _⟩ :=
      handleUserTranscript_fields txt false (applyTranscripts evs c)
    have hA1 : (applyTranscripts evs c).service.isActive = true := a1.trans hA
    have hA2 : (handleUserTranscript txt false
        (applyTranscripts evs c)).service.isActive = true := a2.trans hA1
    have hTr : (handleUserTranscript txt false
        (applyTranscripts evs c)).service.state.transcript = txt :=
      handleUserTranscript_transcript_active txt false _ hA1
    have hT : trimString (handleUserTranscript txt false
        (applyTranscripts evs c)).service.state.transcript ≠ "" := by
      rw [hTr]
      exact hv
    obtain ⟨s1, s2, s3, s4⟩ := submitAnswer_shape p _ hA2 hT
    have hum : userMessages (handleUserTranscript txt false
        (applyTranscripts evs c)) = userMessages c :=
      (userMessages_congr m2).trans (userMessages_congr m1)
    have hidx : (handleUserTranscript txt false
        (applyTranscripts evs c)).service.currentQuestionIndex =
        c.service.currentQuestionIndex := i2.trans i1
    have hq : (handleUserTranscript txt false
        (applyTranscripts evs c)).service.interviewQuestions =
        c.service.interviewQuestions := q2.trans q1
    refine ⟨?_, ?_, ?_, ?_⟩
    · show (userMessages (submitAnswer p _)).map _ = _
      rw [s1, hum, hidx, List.map_append]
      simp
    · show (submitAnswer p _).service.currentQuestionIndex = _
      rw [s2, hidx]
    · show (submitAnswer p _).service.interviewQuestions = _
      rw [s3, hq]
    · show (submitAnswer p _).service.isActive = _
      rw [s4, hidx, hq]
  | skip evs =>
    obtain ⟨m1, i1, q1, a1, _, _, _, _, _⟩ := applyTranscripts_fields evs c
    have hA1 : (applyTranscripts evs c).service.isActive = true := a1.trans hA
    obtain ⟨s1, s2, s3, s4⟩ := skipQuestion_shape p _ hA1
    have hum : userMessages (applyTranscripts evs c) = userMessages c :=
      userMessages_congr m1
    refine ⟨?_, ?_, ?_, ?_⟩
    · show (userMessages (skipQuestion p _)).map _ = _
      rw [s1, hum, i1, List.map_append]
      simp
    · show (skipQuestion p _).service.currentQuestionIndex = _
      rw [s2, i1]
    · show (skipQuestion p _).service.interviewQuestions = _
      rw [s3, q1]
    · show (skipQuestion p _).service.isActive = _
      rw [s4, i1, q1]

theorem runTurns_shape (p : Bool) : ∀ (ts : List TurnAction) (c : Conf),
    c.service.isActive = true →
    c.service.currentQuestionIndex + ts.length =
      c.service.interviewQuestions.length →
    (∀ t ∈ ts, TurnValid t) →
    (userMessages (runTurns p ts c)).map (fun m => m.questionIndex) =
      (userMessages c).map (fun m => m.questionIndex) ++
        List.range' c.service.currentQuestionIndex ts.length ∧
    (ts ≠ [] → (runTurns p ts c).service.isActive = false) := by
  intro ts
  induction ts with
  | nil =>
    intro c hA hk hv
    simp [runTurns]
  | cons t rest ih =>
    intro c hA hk hv
    obtain ⟨s1, s2, s3, s4⟩ :=
      doTurn_shape p t c hA (hv t (List.mem_cons_self t rest))
    have hrun : runTurns p (t :: rest) c = runTurns p rest (doTurn p t c) := rfl
    by_cases hrest : rest = []
    · subst hrest
      rw [hrun]
      have hkN : c.service.currentQuestionIndex + 1 =
          c.service.interviewQuestions.length := by simpa using hk
      refine ⟨?_, ?_⟩
      · show (userMessages (doTurn p t c)).map _ = _
        rw [s1]
        simp [List.range'_succ]
      · intro _
        show (doTurn p t c).service.isActive = false
        rw [s4]
        simp [hkN]
    · have hlen : rest.length ≠ 0 := by
        simpa [List.length_eq_zero] using hrest
      have hlt : c.service.currentQuestionIndex + 1 <
          c.service.interviewQuestions.length := by
        simp only [List.length_cons] at hk
        omega
      have hA' : (doTurn p t c).service.isActive = true := by
        rw [s4]; simpa using hlt
      have hk' : (doTurn p t c).service.currentQuestionIndex + rest.length =
          (doTurn p t c).service.interviewQuestions.length := by
        rw [s2, s3]
        simp only [List.length_cons] at hk
        omega
      have hv' : ∀ x ∈ rest, TurnValid x :=
        fun x hx => hv x (List.mem_cons_of_mem _ hx)
      obtain ⟨r1, r2⟩ := ih (doTurn p t c) hA' hk' hv'
      rw [hrun]
      refine ⟨?_, fun _ => r2 hrest⟩
      rw [r1, s1, s2]
      simp [List.range'_succ, List.append_assoc]

/-! ### The mutual-exclusion invariant -/

theorem speak_inv (c : Conf) (t : String)
    (hL : c.service.state.isListening = false) (hE : EmitsOK c) :
    Inv (speak c t) ∧ (speak c t).service.state.isListening = false := by
  unfold Inv EmitsOK at *
  refine ⟨⟨rfl, ?_⟩, ?_⟩
  · simp [speak, updState, mutexOK, List.all_append, hE, hL]
  · simp [hL]

theorem startListening_inv (p : Bool) (c : Conf) (h : Inv c) :
    Inv (startListening p c) := by
  obtain ⟨hS, hE⟩ := h
  unfold startListening
  split
  · exact ⟨hS, hE⟩
  · unfold Inv EmitsOK at *
    simp [updState, addToast, sttStartCall, mutexOK, List.all_append, hE]

theorem completeInterview_inv (c : Conf) (h : Inv c) :
    Inv (completeInterview c) := by
  obtain ⟨hS, hE⟩ := h
  unfold completeInterview
  split
  · exact ⟨hS, hE⟩
  · unfold Inv EmitsOK at *
    simp [speak, updState, mutexOK, List.all_append, hE]

theorem askCurrentQuestion_inv (p : Bool) (c : Conf) (h : Inv c)
    (hL : c.service.state.isListening = false) :
    Inv (askCurrentQuestion p c) := by
  obtain ⟨hS, hE⟩ := h
  unfold askCurrentQuestion
  split
  · exact ⟨hS, hE⟩
  split
  · exact completeInterview_inv c ⟨hS, hE⟩
  · exact startListening_inv p _
      (speak_inv _ _ (speak_inv _ _ hL hE).2 (speak_inv _ _ hL hE).1.2).1

theorem submitAnswer_inv (p : Bool) (c : Conf) (h : Inv c) :
    Inv (submitAnswer p c) := by
  obtain ⟨hS, hE⟩ := h
  unfold submitAnswer
  split
  · exact ⟨hS, hE⟩
  · dsimp only
    split
    · unfold Inv EmitsOK at *
      simp [updState, sttStop, addToast, mutexOK, List.all_append, hE, hS]
    · apply askCurrentQuestion_inv
      · unfold Inv EmitsOK at *
        refine ⟨?_, ?_⟩
        · simp [speak, updState, sttStop, addToast, pushMessage, hS]
        · simp [speak, updState, sttStop, addToast, pushMessage, mutexOK,
            List.all_append, hE, hS]
      · simp [speak, updState, sttStop, addToast, pushMessage]

theorem skipQuestion_inv (p : Bool) (c : Conf) (h : Inv c) :
    Inv (skipQuestion p c) := by
  obtain ⟨hS, hE⟩ := h
  unfold skipQuestion
  split
  · exact ⟨hS, hE⟩
  · apply askCurrentQuestion_inv
    · unfold Inv EmitsOK at *
      refine ⟨?_, ?_⟩
      · simp [speak, updState, sttStop, addToast, pushMessage, hS]
      · simp [speak, updState, sttStop, addToast, pushMessage, mutexOK,
          List.all_append, hE, hS]
    · simp [speak, updState, sttStop, addToast, pushMessage]

theorem handleUserTranscript_inv (t : String) (f : Bool) (c : Conf)
    (h : Inv c) : Inv (handleUserTranscript t f c) := by
  obtain ⟨hS, hE⟩ := h
  unfold handleUserTranscript
  split
  · exact ⟨hS, hE⟩
  · unfold Inv EmitsOK at *
    simp [updState, mutexOK, List.all_append, hE, hS]

theorem stop_inv (c : Conf) (h : Inv c) : Inv (stop c) := by
  obtain ⟨hS, hE⟩ := h
  unfold Inv EmitsOK at *
  simp [stop, updState, sttStop, ttsStop, mutexOK, List.all_append, hE]

theorem startInterview_inv (p : Bool) (c : Conf) (h : Inv c) :
    ∀ c', startInterview p c = Except.ok c' → Inv c' := by
  obtain ⟨hS, hE⟩ := h
  intro c' hc'
  unfold startInterview at hc'
  split at hc'
  · cases hc'
  · cases hc'
    apply askCurrentQuestion_inv
    · refine (speak_inv _ _ ?_ ?_).1
      · rfl
      · unfold EmitsOK at *
        simp [updState, mutexOK, List.all_append, hE, initialState]
    · exact (speak_inv _ _ rfl (by
        unfold EmitsOK at *
        simp [updState, mutexOK, List.all_append, hE, initialState])).2

theorem inv_reachable : ∀ {c : Conf}, Reachable c → Inv c := by
  intro c h
  induction h with
  | init => exact ⟨rfl, rfl⟩
  | step o hr ih =>
    cases o with
    | setQuestions qs => exact ih
    | startOp p =>
      simp only [applyOp]
      split
      next c' heq => exact startInterview_inv p _ ih c' heq
      next e heq => exact ih
    | submit p => exact submitAnswer_inv p _ ih
    | skip p => exact skipQuestion_inv p _ ih
    | transcriptEv t f => exact handleUserTranscript_inv t f _ ih
    | stopOp => exact stop_inv _ ih

/-! ## Claim theorems -/

/-- C1: every session started with a non-empty list of N questions that
runs to normal completion (each question either answered via
`submitAnswer` with a nonempty trimmed transcript, or skipped via
`skipQuestion`, with arbitrary interleaved transcript deliveries) ends
inactive with exactly one user turn record per question index 0..N-1 in
the transcript log, in the order the questions were asked. -/
theorem c1_sequential_turns (p : Bool) (qs : List String)
    (turns : List TurnAction) (c0 : Conf)
    (hqs : qs ≠ [])
    (hstart : startInterview p (setInterviewQuestions initialConf qs) =
      Except.ok c0)
    (hlen : turns.length = qs.length)
    (hvalid : ∀ t ∈ turns, TurnValid t) :
    (userMessages (runTurns p turns c0)).map (fun m => m.questionIndex) =
      List.range qs.length ∧
    (runTurns p turns c0).service.isActive = false := by
  have hq0 : ¬ (setInterviewQuestions initialConf
      qs).service.interviewQuestions.length = 0 := by
    simpa [setInterviewQuestions, List.length_eq_zero] using hqs
  obtain ⟨c', heq, hum, hidx, hquest, hact⟩ :=
    startInterview_ok_parts p (setInterviewQuestions initialConf qs) hq0
  rw [hstart] at heq
  injection heq with heq'
  subst heq'
  have hquest' : c0.service.interviewQuestions = qs := hquest
  have hcount : c0.service.currentQuestionIndex + turns.length =
      c0.service.interviewQuestions.length := by
    rw [hidx, hquest', hlen]
    omega
  obtain ⟨r1, r2⟩ := runTurns_shape p turns c0 hact hcount hvalid
  have hturns : turns ≠ [] := by
    intro hnil
    rw [hnil] at hlen
    exact hqs (List.length_eq_zero.mp hlen.symm)
  refine ⟨?_, r2 hturns⟩
  rw [r1, hum, hidx, hlen]
  simp [List.range_eq_range']

/-- C1 witness: a concrete two-question run (one answered, one skipped). -/
theorem c1_sequential_turns_witness :
    (userMessages (runTurns true
        [TurnAction.answer [("um", false)] "hello world", TurnAction.skip []]
        startedConf)).map (fun m => m.questionIndex) = List.range 2 ∧
    (runTurns true
        [TurnAction.answer [("um", false)] "hello world", TurnAction.skip []]
        startedConf).service.isActive = false :=
  c1_sequential_turns true ["Q1", "Q2"]
    [TurnAction.answer [("um", false)] "hello world", TurnAction.skip []]
    startedConf (by decide) rfl (by decide) (by decide)

/-- C2 counterexample: in Scenario B (`start(["Q1"])` then
`skipQuestion()` before any transcript) the completion payload reports
`answersGiven = 1`, not `0`, because the skip sentinel is logged as a
user-role message and `answersGiven` counts user-role messages. -/
theorem c2_counterexample :
    scenarioBConf.eff.completions.map (fun d => d.answersGiven) ≠ [0] ∧
    scenarioBConf.eff.completions.map (fun d => d.answersGiven) = [1] := by
  decide

/-- C2 (amended): in Scenario B, `onComplete` fires exactly once with
`answersGiven = 1` (the skip record is counted, since the skip sentinel
is recorded as a user-role message), `questionsAsked = 1`, and the
recorded answer text for question 0 equal to the skip sentinel. -/
theorem c2_amended :
    scenarioBConf.eff.completions.length = 1 ∧
    scenarioBConf.eff.completions.map (fun d => d.answersGiven) = [1] ∧
    scenarioBConf.eff.completions.map (fun d => d.questionsAsked) = [1] ∧
    (userMessages scenarioBConf).map (fun m => m.content) =
      [skipSentinel 0] := by
  decide

/-- C3 counterexample: when the input port rejects with permission denied
during the first listening phase (Scenario D), the controller does NOT
transition to a failed state: no error is recorded, the session stays
active with `isListening = true`, no error toast is surfaced, and the
resulting configuration is identical to the success case. -/
theorem c3_counterexample :
    scenarioDConf.service.state.error = none ∧
    scenarioDConf.service.isActive = true ∧
    scenarioDConf.service.state.isListening = true ∧
    scenarioDConf.eff.toasts.filter (fun t => t.1 == ToastKind.error) = [] ∧
    (startInterview true
        (setInterviewQuestions initialConf ["Q1"])).toOption =
      some scenarioDConf := by
  decide

/-- C3 (amended): a permission-denied rejection of the input port's
`start()` is swallowed inside `startListening` (its catch block only
logs): the controller behaves identically to the success case, stays
active with `isListening = true`, records no error, and fires no
completion; the controller exposes no `onError` subscription at all. -/
theorem c3_amended (p : Bool) (c : Conf) (h : c.service.isActive = true) :
    startListening false c = startListening p c ∧
    (startListening false c).service.state.isListening = true ∧
    (startListening false c).service.state.error = c.service.state.error ∧
    (startListening false c).service.isActive = true ∧
    (startListening false c).eff.completions = c.eff.completions := by
  refine ⟨rfl, ?_, startListening_error false c, ?_, ?_⟩
  · rw [startListening_state_active false c h]
  · rw [startListening_isActive]
    exact h
  · unfold startListening
    split <;> rfl

/-- C3 amended witness at a concrete listening configuration. -/
theorem c3_amended_witness :
    startListening false startedConf = startListening true startedConf ∧
    (startListening false startedConf).service.state.isListening = true ∧
    (startListening false startedConf).service.state.error =
      startedConf.service.state.error ∧
    (startListening false startedConf).service.isActive = true ∧
    (startListening false startedConf).eff.completions =
      startedConf.eff.completions :=
  c3_amended true startedConf (by decide)

/-- C4 counterexample: the claim fails on the code under a concrete
overlapping schedule.  Start on `["Q1", "Q2"]`; welcome playback ends;
the start-up delay fires; the user clicks Skip while question 1 is
being spoken (cancelling that playback); task A resumes and its second
speak cancels the skip playback; task B resumes and waits out its
delay; the second playback ends and task A starts listening
(`isListening := true`); then task B's delay fires and its re-entered
`askCurrentQuestion` speaks question 2 — `updateState` emits, and the
controller then holds, a state with `isListening` and `isSpeaking` both
true.  The guard conjuncts certify that every slice followed the branch
the source takes at that point. -/
theorem c4_counterexample :
    (setInterviewQuestions initialConf
      ["Q1", "Q2"]).service.interviewQuestions.length ≠ 0 ∧
    race2.service.isActive = true ∧
    race2.service.currentQuestionIndex <
      race2.service.interviewQuestions.length ∧
    race3.service.isActive = true ∧
    race6.service.isActive = true ∧
    race7.service.isActive = true ∧
    race7.service.currentQuestionIndex + 1 <
      race7.service.interviewQuestions.length ∧
    race7.service.state.isListening = true ∧
    raceTrace.service.state.isListening = true ∧
    raceTrace.service.state.isSpeaking = true ∧
    raceTrace.eff.emittedStates.any
      (fun st => st.isListening && st.isSpeaking) = true := by
  decide

/-- C4 (amended): under run-to-completion stimulus delivery — every
controller operation and port event arriving only between whole
operations, never at an await point of an in-flight method —
`isListening` and `isSpeaking` are never both true, neither in the
current state nor in any state ever handed to the `onStateChange`
callback.  (Without that restriction the property fails; see the
counterexample schedule.) -/
theorem c4_mutual_exclusion (c : Conf) (h : Reachable c) :
    (c.service.state.isListening && c.service.state.isSpeaking) = false ∧
    c.eff.emittedStates.all mutexOK = true := by
  obtain ⟨hS, hE⟩ := inv_reachable h
  refine ⟨?_, hE⟩
  rw [hS]
  simp

/-- C4 witness: reachability discharged for a concrete run. -/
theorem c4_mutual_exclusion_witness :
    (demoReached.service.state.isListening &&
      demoReached.service.state.isSpeaking) = false ∧
    demoReached.eff.emittedStates.all mutexOK = true :=
  c4_mutual_exclusion demoReached
    (Reachable.step (Op.skip true) (Reachable.step (Op.startOp true)
      (Reachable.step (Op.setQuestions ["Q1"]) Reachable.init)))

/-- C5: any sequence of transcript delivery events (interim or final)
without an intervening `submitAnswer`/`skipQuestion` never changes
`currentIndex`; it changes nothing but the pending transcript (message
log, activity, questions, completions and all other state flags are
untouched). -/
theorem c5_no_auto_advance (evs : List (String × Bool)) (c : Conf) :
    (applyTranscripts evs c).service.messages = c.service.messages ∧
    (applyTranscripts evs c).service.currentQuestionIndex =
      c.service.currentQuestionIndex ∧
    (applyTranscripts evs c).service.interviewQuestions =
      c.service.interviewQuestions ∧
    (applyTranscripts evs c).service.isActive = c.service.isActive ∧
    (applyTranscripts evs c).eff.completions = c.eff.completions ∧
    (applyTranscripts evs c).service.state.isListening =
      c.service.state.isListening ∧
    (applyTranscripts evs c).service.state.isSpeaking =
      c.service.state.isSpeaking ∧
    (applyTranscripts evs c).service.state.isProcessing =
      c.service.state.isProcessing ∧
    (applyTranscripts evs c).service.state.error = c.service.state.error :=
  applyTranscripts_fields evs c

/-- C6: every `skipQuestion()` call in an active session appends exactly
one user turn record whose text is the skip sentinel, regardless of any
pending transcript present at the time. -/
theorem c6_skip_sentinel (p : Bool) (c : Conf)
    (h : c.service.isActive = true) :
    userMessages (skipQuestion p c) =
      userMessages c ++
        [{ role := Role.user
           content := skipSentinel c.service.currentQuestionIndex
           questionIndex := c.service.currentQuestionIndex }] :=
  (skipQuestion_shape p c h).1

/-- C6 witness: skipping with a nonempty pending transcript still records
the sentinel. -/
theorem c6_skip_sentinel_witness :
    pendingConf.service.state.transcript = "hello there" ∧
    userMessages (skipQuestion true pendingConf) =
      userMessages pendingConf ++
        [{ role := Role.user, content := skipSentinel 0
           questionIndex := 0 }] :=
  ⟨by decide, c6_skip_sentinel true pendingConf (by decide)⟩

/-- C7 counterexample: `startInterview` called while a session is already
running (active, mid-session) does NOT fail; it resets the session and
starts over (index back to 0, message log reset to the first question). -/
theorem c7_counterexample :
    runningConf.service.isActive = true ∧
    runningConf.service.currentQuestionIndex = 1 ∧
    runningConf.service.messages.length = 3 ∧
    ((startInterview true runningConf).map
      (fun x => (x.service.currentQuestionIndex,
        x.service.messages.length))).toOption = some (0, 1) := by
  decide

/-- C7 (amended): `start` fails (with the "No interview questions set"
error, leaving the controller untouched) exactly when the question list
is empty; there is no already-running check — in every other case,
including while a session is active, it succeeds and restarts at
question 0. -/
theorem c7_amended (p : Bool) (c : Conf) :
    (startInterview p c = Except.error "No interview questions set" ↔
      c.service.interviewQuestions = []) ∧
    (startInterview p c).map
        (fun x => (x.service.isActive, x.service.currentQuestionIndex)) =
      (if c.service.interviewQuestions = [] then
        Except.error "No interview questions set"
      else Except.ok (true, 0)) := by
  by_cases hq : c.service.interviewQuestions = []
  · have hlen : c.service.interviewQuestions.length = 0 := by simp [hq]
    unfold startInterview
    rw [if_pos hlen, if_pos hq]
    simp [hq, Except.map]
  · have hlen : ¬ c.service.interviewQuestions.length = 0 := by
      simpa [List.length_eq_zero] using hq
    obtain ⟨c', heq, hum, hidx, hquest, hact⟩ := startInterview_ok_parts p c hlen
    rw [heq, if_neg hq]
    refine ⟨?_, ?_⟩
    · simp [hq]
    · simp [Except.map, hact, hidx]

/-- C8 counterexample: `submitAnswer()` with an empty pending transcript
in an active listening session is NOT a no-op: it stops listening
(`isListening` flips from `true` to `false` and the input port is
stopped). -/
theorem c8_counterexample :
    startedConf.service.isActive = true ∧
    startedConf.service.state.transcript = "" ∧
    startedConf.service.state.isListening = true ∧
    (submitAnswer true startedConf).service.state.isListening = false ∧
    (submitAnswer true startedConf).eff.sttStopCalls =
      startedConf.eff.sttStopCalls + 1 := by
  decide

/-- C8 (amended): a refused `submitAnswer` (inactive controller, or empty
trimmed pending transcript) appends no turn record, leaves
`currentQuestionIndex`, the pending transcript and the completions
untouched, and surfaces one notification — a warning toast in the
active/empty-transcript case (where it also stops listening), an error
toast in the inactive case (where nothing else changes). -/
theorem c8_amended (p : Bool) (c : Conf)
    (h : c.service.isActive = false ∨ trimString c.service.state.transcript = "") :
    (submitAnswer p c).service.messages = c.service.messages ∧
    (submitAnswer p c).service.currentQuestionIndex =
      c.service.currentQuestionIndex ∧
    (submitAnswer p c).eff.completions = c.eff.completions ∧
    (submitAnswer p c).service.state.transcript =
      c.service.state.transcript ∧
    (submitAnswer p c).service.state.isListening =
      (if c.service.isActive = true then false
        else c.service.state.isListening) ∧
    (submitAnswer p c).eff.toasts = c.eff.toasts ++
      [(if c.service.isActive = true then
          (ToastKind.warning, "Please speak an answer first")
        else (ToastKind.error, "Interview not active"))] := by
  by_cases hA : c.service.isActive = true
  · have hT : trimString c.service.state.transcript = "" := by
      rcases h with h | h
      · rw [hA] at h
        cases h
      · exact h
    unfold submitAnswer
    rw [if_neg (by simp [hA])]
    simp only [sttStop, updState]
    rw [if_pos hT]
    refine ⟨rfl, rfl, rfl, rfl, ?_, ?_⟩ <;> simp [hA, addToast, updState]
  · have hA' : c.service.isActive = false := by
      revert hA
      cases c.service.isActive <;> simp
    unfold submitAnswer
    rw [if_pos hA']
    refine ⟨rfl, rfl, rfl, rfl, ?_, ?_⟩ <;> simp [hA', addToast]

/-- C8 amended witness: refusal at a concrete active listening
configuration with empty transcript. -/
theorem c8_amended_witness :
    (submitAnswer true startedConf).service.messages =
      startedConf.service.messages ∧
    (submitAnswer true startedConf).service.currentQuestionIndex =
      startedConf.service.currentQuestionIndex ∧
    (submitAnswer true startedConf).eff.completions =
      startedConf.eff.completions ∧
    (submitAnswer true startedConf).service.state.transcript =
      startedConf.service.state.transcript ∧
    (submitAnswer true startedConf).service.state.isListening =
      (if startedConf.service.isActive = true then false
        else startedConf.service.state.isListening) ∧
    (submitAnswer true startedConf).eff.toasts = startedConf.eff.toasts ++
      [(if startedConf.service.isActive = true then
          (ToastKind.warning, "Please speak an answer first")
        else (ToastKind.error, "Interview not active"))] :=
  c8_amended true startedConf (Or.inr (by decide))

/-- C9 counterexample: `stop()` does NOT discard the pending transcript;
the unsubmitted transcript text survives the call. -/
theorem c9_counterexample :
    pendingConf.service.state.transcript = "hello there" ∧
    (stop pendingConf).service.state.transcript = "hello there" ∧
    (stop pendingConf).service.state.transcript ≠ "" := by
  decide

/-- C9 (amended): `stop()` cancels output playback and halts input
capture (one stop call to each port), deactivates the session with all
activity flags cleared, never emits a completion and appends no turn
record; the pending transcript, however, is retained unchanged (it is
only cleared by a fresh `start`). -/
theorem c9_amended (c : Conf) :
    (stop c).service.isActive = false ∧
    (stop c).service.state.isListening = false ∧
    (stop c).service.state.isSpeaking = false ∧
    (stop c).service.state.isProcessing = false ∧
    (stop c).service.state.transcript = c.service.state.transcript ∧
    (stop c).eff.completions = c.eff.completions ∧
    (stop c).eff.sttStopCalls = c.eff.sttStopCalls + 1 ∧
    (stop c).eff.ttsStopCalls = c.eff.ttsStopCalls + 1 ∧
    (stop c).service.messages = c.service.messages :=
  ⟨rfl, rfl, rfl, rfl, rfl, rfl, rfl, rfl, rfl⟩

/-- C10 counterexample: a second `stop()` in a row is not event-free: it
re-emits a state-change notification (with identical payload) and issues
another stop call to the input port. -/
theorem c10_counterexample :
    (stop (stop startedConf)).eff.emittedStates.length =
      (stop startedConf).eff.emittedStates.length + 1 ∧
    (stop (stop startedConf)).eff.sttStopCalls =
      (stop startedConf).eff.sttStopCalls + 1 := by
  decide

/-- C10 (amended): repeated `stop()` is idempotent on the controller
state — the second call changes no state field and fires no completion —
and in a terminal configuration (inactive, all flags down) `stop()` is a
pure state no-op; but each repeated call still re-emits one state-change
notification carrying the already-current state. -/
theorem c10_amended (c : Conf) :
    (stop (stop c)).service = (stop c).service ∧
    (stop (stop c)).eff.completions = (stop c).eff.completions ∧
    (stop (stop c)).eff.emittedStates =
      (stop c).eff.emittedStates ++ [(stop c).service.state] ∧
    (c.service.isActive = false → c.service.state.isListening = false →
      c.service.state.isSpeaking = false →
      c.service.state.isProcessing = false →
      (stop c).service = c.service) := by
  refine ⟨rfl, rfl, rfl, ?_⟩
  intro h1 h2 h3 h4
  obtain ⟨⟨⟨l, s, pr, tr, er⟩, msgs, qs, idx, act⟩, ef⟩ := c
  have h1' : act = false := h1
  have h2' : l = false := h2
  have h3' : s = false := h3
  have h4' : pr = false := h4
  subst h1' h2' h3' h4'
  rfl

/-- C10 amended witness: applied at a concrete stopped configuration. -/
theorem c10_amended_witness :
    (stop stoppedConf).service = stoppedConf.service :=
  (c10_amended stoppedConf).2.2.2 (by decide) (by decide) (by decide)
    (by decide)

end HugoVoice
